import Mathlib

/-!
Verification of the scene/animation model of `src/main.cpp` (3D planet/moon
viewer). The C++ code is shallowly embedded: `float` scalars are modelled as
exact rationals (`ℚ`), the trigonometric position computation is modelled over
`ℝ`, `Uint32` millisecond timestamps as `ℕ` with explicit wrap-around
subtraction, and the OpenGL calls issued by the `render` methods as a trace of
`GLOp` commands. Each C++ method becomes a Lean function on an explicit state
record; the process-wide globals (`sphereRotationX/Y`, `dragging`,
`lastMouseX/Y`, `lastInteractionTime`) together with the planet form a `World`
record threaded through `handleInput`.
-/

/-- `Uint32` subtraction `a - b` as performed by the C++ guard
`currentTime - lastInteractionTime` (line 137): computed modulo `2^32`. -/
def usub32 (a b : ℕ) : ℕ := (a + (2 ^ 32 - b % 2 ^ 32)) % 2 ^ 32

/-- The wrap-around used by every angle update in the source
(`x += s; if (x >= 360.0f) x -= 360.0f;`, e.g. lines 69-70, 125-126,
129-130). -/
def wrap360 (a : ℚ) : ℚ := if 360 ≤ a then a - 360 else a

/-- Lines 138-140 of `Planet::update`: the three sequential `if` statements
that decay `userRotationX` toward zero. Note that the second `if` tests the
value already modified by the first one, exactly as the C++ statements do. -/
def decayStep (x : ℚ) : ℚ :=
  let u1 := if 0 < x then x - 1 / 2 else x
  let u2 := if u1 < 0 then u1 + 1 / 2 else u1
  if |u2| < 1 / 2 then 0 else u2

/-- State of `class Moon` (lines 35-79), fields in declaration order
(lines 37-40). Texture handles are abstract `ℕ` identifiers. -/
structure Moon where
  orbitAngle : ℚ
  distance : ℚ
  size : ℚ
  textureID : ℕ
  atmosphereTextureID : ℕ
deriving DecidableEq, Repr

/-- `Moon::Moon` (lines 43-44): `orbitAngle` starts at `0`. -/
def Moon.init (d s : ℚ) (texture atmosphereTexture : ℕ) : Moon :=
  { orbitAngle := 0, distance := d, size := s,
    textureID := texture, atmosphereTextureID := atmosphereTexture }

/-- `Moon::update` (lines 68-71): `orbitAngle += 0.5f`, wrapped at 360. -/
def Moon.update (m : Moon) : Moon :=
  { m with orbitAngle := wrap360 (m.orbitAngle + 1 / 2) }

/-- State of `class Planet` (lines 82-186), fields in declaration order.
The stored `positionX`/`positionZ` fields are real-valued (they hold
`orbitRadius * cos/sin(orbitAngle * pi / 180)`); they are modelled as the
derived functions `Planet.posX` / `Planet.posZ` below, which agree with the
stored fields at all times: the constructor initialises them to
`(orbitR, 0)`, the value of the formulas at the initial angle `0`, and
`update` (lines 133-134) rewrites them from the freshly updated angle. -/
structure Planet where
  rotationX : ℚ
  rotationY : ℚ
  zoom : ℚ
  passiveRotationSpeed : ℚ
  textureID : ℕ
  atmosphereTextureID : ℕ
  radius : ℚ
  atmosphereRadius : ℚ
  moon : Option Moon
  userRotationX : ℚ
  userRotationY : ℚ
  orbitRadius : ℚ
  orbitAngle : ℚ
  orbitSpeed : ℚ
deriving DecidableEq, Repr

/-- `Planet::Planet` (lines 100-107). -/
def Planet.init (r atmosphereR : ℚ) (texture atmosphereTexture : ℕ)
    (m : Option Moon) (orbitR orbitS : ℚ) : Planet :=
  { rotationX := 0, rotationY := 0, zoom := 5, passiveRotationSpeed := 1 / 10,
    textureID := texture, atmosphereTextureID := atmosphereTexture,
    radius := r, atmosphereRadius := atmosphereR, moon := m,
    userRotationX := 0, userRotationY := 0,
    orbitRadius := orbitR, orbitAngle := 0, orbitSpeed := orbitS }

/-- `Planet::getRotationX` (line 110). -/
def Planet.getRotationX (p : Planet) : ℚ := p.rotationX

/-- `Planet::getRotationY` (line 111). -/
def Planet.getRotationY (p : Planet) : ℚ := p.rotationY

/-- `Planet::getZoom` (line 112). -/
def Planet.getZoom (p : Planet) : ℚ := p.zoom

/-- `Planet::setRotation` (lines 114-117): overwrites the user rotation. -/
def Planet.setRotation (p : Planet) (rotX rotY : ℚ) : Planet :=
  { p with userRotationX := rotX, userRotationY := rotY }

/-- `Planet::setZoom` (line 119). -/
def Planet.setZoom (p : Planet) (z : ℚ) : Planet := { p with zoom := z }

/-- `Planet::update` (lines 122-147). `currentTime` models the value returned
by `SDL_GetTicks()` at line 123 and `lastInteractionTime` the global read in
the guard at line 137. -/
def Planet.update (p : Planet) (currentTime lastInteractionTime : ℕ) : Planet :=
  { p with
    rotationY := wrap360 (p.rotationY + p.passiveRotationSpeed),
    orbitAngle := wrap360 (p.orbitAngle + p.orbitSpeed),
    userRotationX :=
      if 2000 ≤ usub32 currentTime lastInteractionTime ∧ p.userRotationX ≠ 0 then
        decayStep p.userRotationX
      else p.userRotationX,
    moon := p.moon.map Moon.update }

/-- Stored field `Planet::positionX` as a function of the state
(lines 105 and 133): `orbitRadius * cosf(orbitAngle * M_PI / 180.0f)`. -/
noncomputable def Planet.posX (p : Planet) : ℝ :=
  (p.orbitRadius : ℝ) * Real.cos ((p.orbitAngle : ℝ) * Real.pi / 180)

/-- Stored field `Planet::positionZ` as a function of the state
(lines 105 and 134): `orbitRadius * sinf(orbitAngle * M_PI / 180.0f)`. -/
noncomputable def Planet.posZ (p : Planet) : ℝ :=
  (p.orbitRadius : ℝ) * Real.sin ((p.orbitAngle : ℝ) * Real.pi / 180)

/-- Orbit angle of the planet's moon, `0` when no moon is attached. -/
def Planet.moonAngle (p : Planet) : ℚ := (p.moon.map Moon.orbitAngle).getD 0

/-- State of `class Sun` (lines 189-208). -/
structure Sun where
  radius : ℚ
  textureID : ℕ
deriving DecidableEq, Repr

/-- `Sun::update` (lines 205-207): a no-op. -/
def Sun.update (s : Sun) : Sun := s

/-- One fixed-function GL command, as issued by the `render` methods. The
source only ever rotates about the axes `(1,0,0)` and `(0,1,0)`, so
`glRotatef` is split into `rotateX` / `rotateY`. `drawSphere` stands for the
`gluSphere` call of a `renderSphere` helper. -/
inductive GLOp where
  | pushMatrix
  | popMatrix
  | translate (x y z : ℚ)
  | rotateX (angle : ℚ)
  | rotateY (angle : ℚ)
  | bindTexture (id : ℕ)
  | color (r g b a : ℚ)
  | drawSphere (radius : ℚ) (slices stackCount : ℕ)
deriving DecidableEq, Repr

/-- A body state threaded through a `render` method together with the list of
GL commands emitted so far. Each GL call leaves the body state untouched and
appends one command. -/
structure RenderM (σ : Type) where
  state : σ
  ops : List GLOp
deriving Repr

/-- Start a render pass on state `s` with an empty command trace. -/
def RenderM.start {σ : Type} (s : σ) : RenderM σ := { state := s, ops := [] }

/-- Emit one GL command. -/
def RenderM.gl {σ : Type} (r : RenderM σ) (op : GLOp) : RenderM σ :=
  { r with ops := r.ops ++ [op] }

/-- Emit a list of GL commands (a helper call such as `renderSphere`). -/
def RenderM.glAll {σ : Type} (r : RenderM σ) (l : List GLOp) : RenderM σ :=
  { r with ops := r.ops ++ l }

/-- `Moon::renderSphere` (lines 73-78): a bare `gluSphere`. -/
def Moon.renderSphere (radius : ℚ) (slices stackCount : ℕ) : List GLOp :=
  [GLOp.drawSphere radius slices stackCount]

/-- `Planet::renderSphere` (lines 177-185): rotates 90 degrees about the
X axis around the `gluSphere` call, inside its own push/pop pair. -/
def Planet.renderSphere (radius : ℚ) (slices stackCount : ℕ) : List GLOp :=
  [GLOp.pushMatrix, GLOp.rotateX 90, GLOp.drawSphere radius slices stackCount,
   GLOp.popMatrix]

/-- `Moon::render` (lines 46-66), statement by statement, threading the
moon's state through every call. -/
def Moon.renderS (m : Moon) : RenderM Moon :=
  let r0 := RenderM.start m
  let r1 := r0.gl GLOp.pushMatrix
  let r2 := r1.gl (GLOp.rotateY m.orbitAngle)
  let r3 := r2.gl (GLOp.translate m.distance 0 0)
  let r4 := r3.gl (GLOp.bindTexture m.textureID)
  let r5 := r4.glAll (Moon.renderSphere m.size 30 30)
  let r6 := r5.gl GLOp.pushMatrix
  let r7 := r6.gl (GLOp.rotateY (m.orbitAngle * (1 / 2)))
  let r8 := r7.gl (GLOp.bindTexture m.atmosphereTextureID)
  let r9 := r8.gl (GLOp.color 1 1 1 (1 / 2))
  let r10 := r9.glAll (Moon.renderSphere (m.size + 1 / 20) 30 30)
  let r11 := r10.gl (GLOp.color 1 1 1 1)
  let r12 := r11.gl GLOp.popMatrix
  r12.gl GLOp.popMatrix

/-- `Planet::render` (lines 149-175), statement by statement. `px`/`pz` are
the stored `positionX`/`positionZ` values read at line 152 (real-valued in
the source; the transform-stack analysis below does not depend on them). The
nested `moon->render()` call (lines 170-172) threads the moon's state and
appends the moon's trace inside the planet's transform. -/
def Planet.renderS (p : Planet) (px pz : ℚ) : RenderM Planet :=
  let r0 := RenderM.start p
  let r1 := r0.gl GLOp.pushMatrix
  let r2 := r1.gl (GLOp.translate px 0 pz)
  let r3 := r2.gl (GLOp.rotateX p.userRotationX)
  let r4 := r3.gl (GLOp.rotateY p.userRotationY)
  let r5 := r4.gl (GLOp.rotateY p.rotationY)
  let r6 := r5.gl (GLOp.bindTexture p.textureID)
  let r7 := r6.glAll (Planet.renderSphere p.radius 40 40)
  let r8 := r7.gl GLOp.pushMatrix
  let r9 := r8.gl (GLOp.rotateY (p.rotationY + 5))
  let r10 := r9.gl (GLOp.bindTexture p.atmosphereTextureID)
  let r11 := r10.gl (GLOp.color 1 1 1 (1 / 2))
  let r12 := r11.glAll (Planet.renderSphere p.atmosphereRadius 40 40)
  let r13 := r12.gl (GLOp.color 1 1 1 1)
  let r14 := r13.gl GLOp.popMatrix
  let r15 : RenderM Planet :=
    match p.moon with
    | some m =>
        let mr := Moon.renderS m
        { state := { r14.state with moon := some mr.state }, ops := r14.ops ++ mr.ops }
    | none => r14
  r15.gl GLOp.popMatrix

/-- `Sun::render` (lines 198-203): draws the sun at the origin via
`Planet::renderSphere`. -/
def Sun.renderS (s : Sun) : RenderM Sun :=
  let r0 := RenderM.start s
  let r1 := r0.gl GLOp.pushMatrix
  let r2 := r1.gl (GLOp.bindTexture s.textureID)
  let r3 := r2.glAll (Planet.renderSphere s.radius 40 40)
  r3.gl GLOp.popMatrix

/-- The GL command trace of `Planet::render`. -/
def Planet.render (p : Planet) (px pz : ℚ) : List GLOp := (Planet.renderS p px pz).ops

/-- The process-wide state touched by `handleInput`: the planet reference,
the `running` flag of the main loop, and the globals of lines 21 and
211-214. The uninitialised namespace-scope `lastMouseX`/`lastMouseY` are
zero-initialised in C++. -/
structure World where
  planet : Planet
  running : Bool
  sphereRotationY : ℚ
  sphereRotationX : ℚ
  dragging : Bool
  lastMouseX : ℤ
  lastMouseY : ℤ
  lastInteractionTime : ℕ
deriving DecidableEq, Repr

/-- The SDL events consumed by `handleInput` (lines 352-399). The button
field carries the SDL button number; `SDL_BUTTON_LEFT` is `1`. -/
inductive Event where
  | quit
  | mouseMotion (x y : ℤ)
  | mouseButtonDown (button : ℕ) (x y : ℤ)
  | mouseButtonUp (button : ℕ)
  | mouseWheel (y : ℤ)
deriving DecidableEq, Repr

/-- `handleInput` (lines 352-399). `currentTime` models the `SDL_GetTicks()`
call at line 373. -/
def handleInput (e : Event) (currentTime : ℕ) (w : World) : World :=
  match e with
  | Event.quit => { w with running := false }
  | Event.mouseMotion x y =>
      if w.dragging then
        let dx : ℤ := x - w.lastMouseX
        let dy : ℤ := y - w.lastMouseY
        let sy := w.sphereRotationY + (dx : ℚ) * (1 / 2)
        let sx0 := w.sphereRotationX - (dy : ℚ) * (1 / 2)
        let sx1 := if 40 < sx0 then 40 else sx0
        let sx2 := if sx1 < -40 then -40 else sx1
        { w with
          sphereRotationY := sy, sphereRotationX := sx2,
          lastMouseX := x, lastMouseY := y,
          planet := w.planet.setRotation sx2 sy,
          lastInteractionTime := currentTime }
      else w
  | Event.mouseButtonDown button x y =>
      if button = 1 then { w with dragging := true, lastMouseX := x, lastMouseY := y }
      else w
  | Event.mouseButtonUp button =>
      if button = 1 then { w with dragging := false } else w
  | Event.mouseWheel y =>
      let p1 :=
        if 0 < y then w.planet.setZoom (w.planet.getZoom - 1 / 2)
        else if y < 0 then w.planet.setZoom (w.planet.getZoom + 1 / 2)
        else w.planet
      let p2 := if p1.getZoom < 21 / 10 then p1.setZoom (21 / 10) else p1
      let p3 := if 20 < p2.getZoom then p2.setZoom 20 else p2
      { w with planet := p3 }

/-- The moon constructed in `main` (line 247): `Moon(5.0f, 0.27f, ...)`. -/
def mainMoon (moonTexture moonAtmosphereTexture : ℕ) : Moon :=
  Moon.init 5 (27 / 100) moonTexture moonAtmosphereTexture

/-- The planet constructed in `main` (line 250):
`Planet(1.0f, 1.05f, ..., moon, 20.0f, 0.1f)`. -/
def mainPlanet (planetTexture planetAtmosphereTexture moonTexture moonAtmosphereTexture : ℕ) :
    Planet :=
  Planet.init 1 (21 / 20) planetTexture planetAtmosphereTexture
    (some (mainMoon moonTexture moonAtmosphereTexture)) 20 (1 / 10)

/-- The process state at the top of the main loop: the freshly constructed
planet together with the initial values of the globals (lines 21, 211-214). -/
def initialWorld (planetTexture planetAtmosphereTexture moonTexture moonAtmosphereTexture : ℕ) :
    World :=
  { planet := mainPlanet planetTexture planetAtmosphereTexture moonTexture moonAtmosphereTexture,
    running := true, sphereRotationY := 0, sphereRotationX := 0,
    dragging := false, lastMouseX := 0, lastMouseY := 0, lastInteractionTime := 0 }

/-- Simulation state of the fixed-function matrix stack: the saved stack
frames, the transform commands composing the current matrix, and the list of
`(transform in effect, radius)` pairs recorded at each sphere draw. -/
structure TransformState where
  stack : List (List GLOp)
  cur : List GLOp
  draws : List (List GLOp × ℚ)

/-- One step of the matrix-stack simulation. Transform commands are appended
to the current matrix, push/pop save and restore it, a draw records the
transform in effect; texture and color commands do not affect transforms. -/
def stackStep (s : TransformState) (op : GLOp) : TransformState :=
  match op with
  | GLOp.pushMatrix => { s with stack := s.cur :: s.stack }
  | GLOp.popMatrix =>
      match s.stack with
      | [] => s
      | c :: rest => { s with stack := rest, cur := c }
  | GLOp.translate x y z => { s with cur := s.cur ++ [GLOp.translate x y z] }
  | GLOp.rotateX a => { s with cur := s.cur ++ [GLOp.rotateX a] }
  | GLOp.rotateY a => { s with cur := s.cur ++ [GLOp.rotateY a] }
  | GLOp.drawSphere r _ _ => { s with draws := s.draws ++ [(s.cur, r)] }
  | _ => s

/-- For each sphere drawn by a trace, the transform commands in effect. -/
def drawTransforms (ops : List GLOp) : List (List GLOp × ℚ) :=
  (ops.foldl stackStep { stack := [], cur := [], draws := [] }).draws

/-- Transform in effect at the atmosphere draw of `Planet::render` (the
second sphere drawn by the trace: body first, atmosphere second). -/
def atmosphereTransform (p : Planet) (px pz : ℚ) : List GLOp :=
  (((drawTransforms (Planet.render p px pz)).get? 1).map Prod.fst).getD []

/-- Net rotation about the vertical axis accumulated by a command list:
successive `glRotatef` calls about the same axis compose by adding their
angles; commands other than `rotateY` contribute nothing. -/
def netYRot (ops : List GLOp) : ℚ :=
  ops.foldl (fun acc op => acc + match op with | GLOp.rotateY a => a | _ => 0) 0

/-- A run of `Planet::update` ticks; each list entry supplies the
`SDL_GetTicks()` value and the `lastInteractionTime` global for one tick. -/
def tickFold (p : Planet) (ts : List (ℕ × ℕ)) : Planet :=
  ts.foldl (fun q t => Planet.update q t.1 t.2) p

/-- A run of mouse-wheel events through `handleInput`; each entry supplies
the wheel amount `event.wheel.y` and the current time. -/
def wheelFold (w : World) (events : List (ℤ × ℕ)) : World :=
  events.foldl (fun v e => handleInput (Event.mouseWheel e.1) e.2 v) w

/-- The invariant carried through `Planet::update`: the three wrap-around
angles lie in `[0, 360)` and the two per-tick speeds lie in `[0, 360]`. -/
def AngleInv (p : Planet) : Prop :=
  0 ≤ p.rotationY ∧ p.rotationY < 360 ∧
  0 ≤ p.orbitAngle ∧ p.orbitAngle < 360 ∧
  0 ≤ p.moonAngle ∧ p.moonAngle < 360 ∧
  0 ≤ p.passiveRotationSpeed ∧ p.passiveRotationSpeed ≤ 360 ∧
  0 ≤ p.orbitSpeed ∧ p.orbitSpeed ≤ 360

/-- The single orbit-angle step of the planet constructed in `main`
(orbit speed `0.1`): lines 129-130 specialised to `orbitSpeed = 1/10`. -/
def orbitTick (a : ℚ) : ℚ := wrap360 (a + 1 / 10)

/-- Concrete planet used to witness the idle decay: the `main` planet with
`userRotationX` dragged to `3` degrees. -/
def decayPlanet : Planet := { mainPlanet 1 2 3 4 with userRotationX := 3 }

/-- Concrete planet whose next update wraps the orbit angle to exactly `0`:
the `main` planet advanced to orbit angle `359.9`. -/
def planetAtWrap : Planet := { mainPlanet 1 2 3 4 with orbitAngle := 3599 / 10 }

/-- Concrete planet whose next update reaches orbit angle exactly `90`:
the `main` planet advanced to orbit angle `89.9`. -/
def planetAt90 : Planet := { mainPlanet 1 2 3 4 with orbitAngle := 899 / 10 }

/-- Concrete world mid-drag, anchored at mouse position `(100, 100)`. -/
def dragWorld : World :=
  { initialWorld 1 2 3 4 with dragging := true, lastMouseX := 100, lastMouseY := 100 }

/-- Concrete world not in a drag session, with nonzero accumulated state. -/
def idleWorld : World :=
  { initialWorld 1 2 3 4 with sphereRotationX := 7, sphereRotationY := 9, lastMouseX := 11, lastMouseY := 12, lastInteractionTime := 3 }

/-- Concrete world about to begin a second drag session: nonzero accumulated
rotation deltas and a nonzero last-interaction timestamp. -/
def preDragWorld : World :=
  { initialWorld 1 2 3 4 with sphereRotationX := 7, sphereRotationY := 9, lastInteractionTime := 3 }

/-- Concrete planet with nonzero passive spin, used to exhibit the
atmosphere transform: passive spin angle `10`, user rotation `(3, 4)`. -/
def spinPlanet : Planet :=
  { mainPlanet 1 2 3 4 with rotationY := 10, userRotationX := 3, userRotationY := 4, moon := none }

/-! ### Zoom clamping (wheel events) -/

theorem handleInput_wheel_zoom (w : World) (y : ℤ) (t : ℕ) :
    21 / 10 ≤ (handleInput (Event.mouseWheel y) t w).planet.zoom ∧
    (handleInput (Event.mouseWheel y) t w).planet.zoom ≤ 20 := by
  simp only [handleInput, Planet.getZoom, Planet.setZoom]
  split_ifs <;> constructor <;> simp_all <;> linarith

theorem wheelFold_zoom (events : List (ℤ × ℕ)) (w : World)
    (h : 21 / 10 ≤ w.planet.zoom ∧ w.planet.zoom ≤ 20) :
    21 / 10 ≤ (wheelFold w events).planet.zoom ∧
    (wheelFold w events).planet.zoom ≤ 20 := by
  induction events generalizing w with
  | nil => exact h
  | cons e es ih =>
      simp only [wheelFold, List.foldl_cons] at ih ⊢
      exact ih _ (handleInput_wheel_zoom w e.1 e.2)

/-- C1: starting from the planet's initial zoom of `5.0`, after every prefix
of any sequence of mouse-wheel events processed by `handleInput`, the zoom
observable via `getZoom` stays within `[2.1, 20.0]` inclusive. -/
theorem zoom_always_clamped (pt pa mt ma : ℕ) (events : List (ℤ × ℕ)) (n : ℕ) :
    21 / 10 ≤ (wheelFold (initialWorld pt pa mt ma) (events.take n)).planet.getZoom ∧
    (wheelFold (initialWorld pt pa mt ma) (events.take n)).planet.getZoom ≤ 20 := by
  have h0 : 21 / 10 ≤ (initialWorld pt pa mt ma).planet.zoom ∧
      (initialWorld pt pa mt ma).planet.zoom ≤ 20 := by
    norm_num [initialWorld, mainPlanet, Planet.init]
  simpa [Planet.getZoom] using wheelFold_zoom (events.take n) _ h0

/-! ### Wrap-around angles stay in range -/

theorem wrap360_bounds (a s : ℚ) (ha0 : 0 ≤ a) (ha1 : a < 360) (hs0 : 0 ≤ s)
    (hs1 : s ≤ 360) : 0 ≤ wrap360 (a + s) ∧ wrap360 (a + s) < 360 := by
  unfold wrap360
  split_ifs <;> constructor <;> linarith

theorem update_preserves_AngleInv (p : Planet) (tc tl : ℕ) (h : AngleInv p) :
    AngleInv (p.update tc tl) := by
  obtain ⟨h1, h2, h3, h4, h5, h6, h7, h8, h9, h10⟩ := h
  have hrot := wrap360_bounds p.rotationY p.passiveRotationSpeed h1 h2 h7 h8
  have horb := wrap360_bounds p.orbitAngle p.orbitSpeed h3 h4 h9 h10
  have hmoon : 0 ≤ (p.update tc tl).moonAngle ∧ (p.update tc tl).moonAngle < 360 := by
    rcases hm : p.moon with _ | m
    · simp [Planet.update, Planet.moonAngle, hm]
    · have := wrap360_bounds m.orbitAngle (1 / 2)
        (by simpa [Planet.moonAngle, hm] using h5)
        (by simpa [Planet.moonAngle, hm] using h6) (by norm_num) (by norm_num)
      simpa [Planet.update, Planet.moonAngle, hm, Moon.update] using this
  exact ⟨hrot.1, hrot.2, horb.1, horb.2, hmoon.1, hmoon.2, h7, h8, h9, h10⟩

theorem tickFold_preserves_AngleInv (ts : List (ℕ × ℕ)) (p : Planet)
    (h : AngleInv p) : AngleInv (tickFold p ts) := by
  induction ts generalizing p with
  | nil => exact h
  | cons t ts ih =>
      simp only [tickFold, List.foldl_cons] at ih ⊢
      exact ih _ (update_preserves_AngleInv p t.1 t.2 h)

theorem AngleInv_mainPlanet (pt pa mt ma : ℕ) : AngleInv (mainPlanet pt pa mt ma) := by
  refine ⟨?_, ?_, ?_, ?_, ?_, ?_, ?_, ?_, ?_, ?_⟩ <;>
    norm_num [mainPlanet, mainMoon, Planet.init, Moon.init, Planet.moonAngle]

/-- C2: starting from the bodies constructed in `main` (all angles `0`),
after every prefix of any sequence of update ticks, the moon's orbit angle
(step `0.5`), the planet's passive spin angle (step `passiveRotationSpeed`)
and the planet's orbit angle (step `orbitSpeed`) all lie in `[0, 360)`. -/
theorem angles_stay_in_range (pt pa mt ma : ℕ) (ts : List (ℕ × ℕ)) (n : ℕ) :
    (0 ≤ (tickFold (mainPlanet pt pa mt ma) (ts.take n)).rotationY ∧
      (tickFold (mainPlanet pt pa mt ma) (ts.take n)).rotationY < 360) ∧
    (0 ≤ (tickFold (mainPlanet pt pa mt ma) (ts.take n)).orbitAngle ∧
      (tickFold (mainPlanet pt pa mt ma) (ts.take n)).orbitAngle < 360) ∧
    (0 ≤ (tickFold (mainPlanet pt pa mt ma) (ts.take n)).moonAngle ∧
      (tickFold (mainPlanet pt pa mt ma) (ts.take n)).moonAngle < 360) := by
  have h := tickFold_preserves_AngleInv (ts.take n) _ (AngleInv_mainPlanet pt pa mt ma)
  obtain ⟨h1, h2, h3, h4, h5, h6, _, _, _, _⟩ := h
  exact ⟨⟨h1, h2⟩, ⟨h3, h4⟩, ⟨h5, h6⟩⟩

/-! ### Idle decay of the user X rotation -/

theorem decayStep_zero : decayStep 0 = 0 := by norm_num [decayStep]

theorem decayStep_pos_big (x : ℚ) (h : 1 ≤ x) : decayStep x = x - 1 / 2 := by
  have h0 : (0 : ℚ) < x := by linarith
  have h1 : ¬(x - 1 / 2 < (0 : ℚ)) := by linarith
  have h2 : (0 : ℚ) ≤ x - 1 / 2 := by linarith
  have h3 : ¬(x - 1 / 2 < (1 : ℚ) / 2) := by linarith
  simp only [decayStep, if_pos h0, if_neg h1, abs_of_nonneg h2, if_neg h3]

theorem decayStep_pos_small (x : ℚ) (h0 : 0 < x) (h1 : x < 1) : decayStep x = 0 := by
  rcases lt_or_le x (1 / 2) with hx | hx
  · have ha : x - 1 / 2 < (0 : ℚ) := by linarith
    simp only [decayStep, if_pos h0, if_pos ha]
    have he : x - 1 / 2 + 1 / 2 = x := by ring
    rw [he, if_pos (by rw [abs_of_pos h0]; linarith : |x| < (1 : ℚ) / 2)]
  · have ha : ¬(x - 1 / 2 < (0 : ℚ)) := by linarith
    have hb : |x - 1 / 2| < (1 : ℚ) / 2 := by
      rw [abs_of_nonneg (by linarith)]; linarith
    simp only [decayStep, if_pos h0, if_neg ha, if_pos hb]

theorem decayStep_neg_big (x : ℚ) (h : x ≤ -1) : decayStep x = x + 1 / 2 := by
  have h0 : ¬((0 : ℚ) < x) := by linarith
  have h1 : x < (0 : ℚ) := by linarith
  have h2 : x + 1 / 2 ≤ (0 : ℚ) := by linarith
  have h3 : ¬(|x + 1 / 2| < (1 : ℚ) / 2) := by rw [abs_of_nonpos h2]; linarith
  simp only [decayStep, if_neg h0, if_pos h1, if_neg h3]

theorem decayStep_neg_small (x : ℚ) (h0 : -1 < x) (h1 : x < 0) : decayStep x = 0 := by
  have ha : ¬((0 : ℚ) < x) := by linarith
  have hb : |x + 1 / 2| < (1 : ℚ) / 2 := by
    rcases le_or_lt (x + 1 / 2) 0 with hc | hc
    · rw [abs_of_nonpos hc]; linarith
    · rw [abs_of_pos hc]; linarith
  simp only [decayStep, if_neg ha, if_pos h1, if_pos hb]

theorem decayStep_small (x : ℚ) (h : |x| < 1) : decayStep x = 0 := by
  rcases lt_trichotomy x 0 with hx | hx | hx
  · exact decayStep_neg_small x (by rw [abs_of_neg hx] at h; linarith) hx
  · rw [hx]; exact decayStep_zero
  · exact decayStep_pos_small x hx (by rw [abs_of_pos hx] at h; linarith)

theorem decayStep_abs_big (x : ℚ) (h : 1 ≤ |x|) : |decayStep x| = |x| - 1 / 2 := by
  rcases le_or_lt 1 x with hx | hx
  · rw [decayStep_pos_big x hx, abs_of_nonneg (by linarith : (0:ℚ) ≤ x - 1 / 2),
      abs_of_nonneg (by linarith : (0:ℚ) ≤ x)]
  · have hx2 : x ≤ -1 := by
      rcases le_or_lt 0 x with hge | hlt
      · rw [abs_of_nonneg hge] at h; linarith
      · rw [abs_of_neg hlt] at h; linarith
    rw [decayStep_neg_big x hx2, abs_of_nonpos (by linarith : x + 1 / 2 ≤ (0:ℚ)),
      abs_of_neg (by linarith : x < (0:ℚ))]
    ring

theorem decayStep_abs_le (x : ℚ) : |decayStep x| ≤ |x| := by
  rcases lt_or_le |x| 1 with h | h
  · rw [decayStep_small x h]
    simp only [abs_zero]
    exact abs_nonneg x
  · rw [decayStep_abs_big x h]
    linarith

theorem decayStep_nonneg (x : ℚ) (h : 0 ≤ x) : 0 ≤ decayStep x := by
  rcases le_or_lt 1 x with hx | hx
  · rw [decayStep_pos_big x hx]; linarith
  · rcases eq_or_lt_of_le h with he | hlt
    · rw [← he, decayStep_zero]
    · rw [decayStep_pos_small x hlt hx]

theorem decayStep_nonpos (x : ℚ) (h : x ≤ 0) : decayStep x ≤ 0 := by
  rcases le_or_lt x (-1) with hx | hx
  · rw [decayStep_neg_big x hx]; linarith
  · rcases eq_or_lt_of_le h with he | hlt
    · rw [he, decayStep_zero]
    · rw [decayStep_neg_small x hx hlt]

theorem decayStep_iterate_zero (n : ℕ) : ∀ x : ℚ, 2 * |x| ≤ (n : ℚ) →
    decayStep^[n] x = 0 := by
  induction n with
  | zero =>
      intro x h
      push_cast at h
      have hx : x = 0 := abs_eq_zero.mp (le_antisymm (by linarith) (abs_nonneg x))
      simp [hx]
  | succ n ih =>
      intro x h
      rw [Function.iterate_succ_apply]
      rcases lt_or_le |x| 1 with hx | hx
      · rw [decayStep_small x hx]
        exact ih 0 (by norm_num)
      · apply ih
        rw [decayStep_abs_big x hx]
        push_cast at h ⊢
        linarith

theorem update_userRotationX_idle (p : Planet) (tc tl : ℕ)
    (h : 2000 ≤ usub32 tc tl) :
    (p.update tc tl).userRotationX = decayStep p.userRotationX := by
  simp only [Planet.update]
  by_cases hx : p.userRotationX = 0
  · rw [if_neg (by simp [hx]), hx, decayStep_zero]
  · rw [if_pos ⟨h, hx⟩]

theorem tickFold_userRotationX (ts : List (ℕ × ℕ)) (p : Planet)
    (h : ∀ t ∈ ts, 2000 ≤ usub32 t.1 t.2) :
    (tickFold p ts).userRotationX = decayStep^[ts.length] p.userRotationX := by
  induction ts generalizing p with
  | nil => rfl
  | cons t ts ih =>
      simp only [tickFold, List.foldl_cons, List.length_cons] at ih ⊢
      rw [Function.iterate_succ_apply,
        ← update_userRotationX_idle p t.1 t.2 (h t (by simp))]
      exact ih _ (fun u hu => h u (by simp [hu]))

/-- C3: once every tick is idle (`currentTime - lastInteractionTime ≥ 2000`)
and no drag input arrives, each `Planet::update` shrinks `|userRotationX|`
(by exactly `0.5` while `|userRotationX| ≥ 1`), snaps it to exactly `0` once
the decremented value is within `0.5` of `0`, never flips its sign, and a run
of at least `2·|userRotationX|` idle ticks ends with `userRotationX = 0`. -/
theorem user_rotation_decays_to_zero (p : Planet) (tc tl : ℕ) (ts : List (ℕ × ℕ))
    (hidle : 2000 ≤ usub32 tc tl)
    (hts : ∀ t ∈ ts, 2000 ≤ usub32 t.1 t.2)
    (hlen : 2 * |p.userRotationX| ≤ (ts.length : ℚ)) :
    |(p.update tc tl).userRotationX| ≤ |p.userRotationX| ∧
    (0 ≤ p.userRotationX → 0 ≤ (p.update tc tl).userRotationX) ∧
    (p.userRotationX ≤ 0 → (p.update tc tl).userRotationX ≤ 0) ∧
    (1 ≤ |p.userRotationX| →
      |(p.update tc tl).userRotationX| = |p.userRotationX| - 1 / 2) ∧
    (|p.userRotationX| < 1 → (p.update tc tl).userRotationX = 0) ∧
    (tickFold p ts).userRotationX = 0 := by
  rw [update_userRotationX_idle p tc tl hidle, tickFold_userRotationX ts p hts]
  exact ⟨decayStep_abs_le _, fun h => decayStep_nonneg _ h,
    fun h => decayStep_nonpos _ h, fun h => decayStep_abs_big _ h,
    fun h => decayStep_small _ h, decayStep_iterate_zero ts.length _ hlen⟩

/-- Witness for C3: from `userRotationX = 3`, six idle ticks reach `0`. -/
theorem user_rotation_decays_to_zero_witness :
    2000 ≤ usub32 2000 0 ∧
    (tickFold decayPlanet (List.replicate 6 (2000, 0))).userRotationX = 0 := by
  refine ⟨by norm_num [usub32], ?_⟩
  refine (user_rotation_decays_to_zero decayPlanet 2000 0 (List.replicate 6 (2000, 0))
    (by norm_num [usub32]) ?_ ?_).2.2.2.2.2
  · intro t ht
    rw [List.eq_of_mem_replicate ht]
    norm_num [usub32]
  · have hx : decayPlanet.userRotationX = 3 := rfl
    rw [hx, List.length_replicate, abs_of_nonneg (by norm_num : (0:ℚ) ≤ 3)]
    norm_num

/-! ### Orbital position -/

/-- C4: after any `Planet::update` tick the stored position equals
`(orbitRadius·cos(orbitAngle·π/180), 0, orbitRadius·sin(orbitAngle·π/180))`;
in particular it is `(orbitRadius, 0, 0)` at orbit angle `0` and
`(0, 0, orbitRadius)` at orbit angle `90`. -/
theorem position_matches_orbit_angle (p : Planet) (tc tl : ℕ) :
    (Planet.posX (p.update tc tl) =
        ((p.update tc tl).orbitRadius : ℝ) *
          Real.cos (((p.update tc tl).orbitAngle : ℝ) * Real.pi / 180) ∧
      Planet.posZ (p.update tc tl) =
        ((p.update tc tl).orbitRadius : ℝ) *
          Real.sin (((p.update tc tl).orbitAngle : ℝ) * Real.pi / 180)) ∧
    ((p.update tc tl).orbitAngle = 0 →
      Planet.posX (p.update tc tl) = ((p.update tc tl).orbitRadius : ℝ) ∧
      Planet.posZ (p.update tc tl) = 0) ∧
    ((p.update tc tl).orbitAngle = 90 →
      Planet.posX (p.update tc tl) = 0 ∧
      Planet.posZ (p.update tc tl) = ((p.update tc tl).orbitRadius : ℝ)) := by
  refine ⟨⟨rfl, rfl⟩, ?_, ?_⟩
  · intro h
    constructor <;> simp [Planet.posX, Planet.posZ, h]
  · intro h
    have h90 : (((p.update tc tl).orbitAngle : ℝ)) * Real.pi / 180 = Real.pi / 2 := by
      rw [h]; push_cast; ring
    constructor <;>
      simp [Planet.posX, Planet.posZ, h90, Real.cos_pi_div_two, Real.sin_pi_div_two]

/-- Witness for C4: concrete updates landing on orbit angles `0` and `90`. -/
theorem position_matches_orbit_angle_witness :
    ((planetAtWrap.update 0 0).orbitAngle = 0 ∧
      Planet.posX (planetAtWrap.update 0 0) = ((planetAtWrap.update 0 0).orbitRadius : ℝ)) ∧
    ((planetAt90.update 0 0).orbitAngle = 90 ∧
      Planet.posZ (planetAt90.update 0 0) = ((planetAt90.update 0 0).orbitRadius : ℝ)) := by
  have h0 : (planetAtWrap.update 0 0).orbitAngle = 0 := by
    norm_num [Planet.update, planetAtWrap, mainPlanet, Planet.init, wrap360]
  have h90 : (planetAt90.update 0 0).orbitAngle = 90 := by
    norm_num [Planet.update, planetAt90, mainPlanet, Planet.init, wrap360]
  exact ⟨⟨h0, ((position_matches_orbit_angle planetAtWrap 0 0).2.1 h0).1⟩,
    ⟨h90, ((position_matches_orbit_angle planetAt90 0 0).2.2 h90).2⟩⟩

/-! ### Orbit period of the main planet -/

theorem update_orbitAngle (p : Planet) (tc tl : ℕ) :
    (p.update tc tl).orbitAngle = wrap360 (p.orbitAngle + p.orbitSpeed) := rfl

theorem update_orbitSpeed (p : Planet) (tc tl : ℕ) :
    (p.update tc tl).orbitSpeed = p.orbitSpeed := rfl

theorem tickFold_orbitAngle (ts : List (ℕ × ℕ)) (p : Planet)
    (h : p.orbitSpeed = 1 / 10) :
    (tickFold p ts).orbitAngle = orbitTick^[ts.length] p.orbitAngle := by
  induction ts generalizing p with
  | nil => rfl
  | cons t ts ih =>
      simp only [tickFold, List.foldl_cons, List.length_cons] at ih ⊢
      rw [Function.iterate_succ_apply]
      have hstep : (p.update t.1 t.2).orbitAngle = orbitTick p.orbitAngle := by
        rw [update_orbitAngle, h, orbitTick]
      rw [← hstep, ← ih (p.update t.1 t.2) (by rw [update_orbitSpeed, h])]

theorem orbitTick_closed : ∀ k : ℕ, k ≤ 3599 → orbitTick^[k] 0 = (k : ℚ) / 10 := by
  intro k
  induction k with
  | zero => intro _; norm_num
  | succ k ih =>
      intro hk
      rw [Function.iterate_succ_apply', ih (by omega), orbitTick, wrap360]
      have hlt : (k : ℚ) / 10 + 1 / 10 < 360 := by
        have : (k : ℚ) ≤ 3598 := by exact_mod_cast Nat.le_of_succ_le_succ hk
        linarith
      rw [if_neg (by linarith)]
      push_cast
      ring

/-- C8: for the planet constructed in `main` (`orbitRadius = 20`,
`orbitSpeed = 0.1`), after exactly 3600 update ticks the orbit angle is back
at its starting value: the increments accumulate to exactly `360` and the
wrap at `360` returns the angle to `0`. -/
theorem orbit_returns_after_3600_ticks (pt pa mt ma : ℕ) (times : ℕ → ℕ × ℕ) :
    (tickFold (mainPlanet pt pa mt ma) ((List.range 3600).map times)).orbitAngle
      = (mainPlanet pt pa mt ma).orbitAngle := by
  have hspeed : (mainPlanet pt pa mt ma).orbitSpeed = 1 / 10 := rfl
  have hlen : ((List.range 3600).map times).length = 3600 := by simp
  rw [tickFold_orbitAngle _ _ hspeed, hlen]
  have h0 : (mainPlanet pt pa mt ma).orbitAngle = 0 := rfl
  rw [h0]
  have h3599 : orbitTick^[3599] (0 : ℚ) = 3599 / 10 := by
    have := orbitTick_closed 3599 (by norm_num)
    push_cast at this
    exact this
  have : orbitTick^[3600] (0 : ℚ) = orbitTick (orbitTick^[3599] 0) := by
    show orbitTick^[3599 + 1] (0 : ℚ) = orbitTick (orbitTick^[3599] 0)
    exact Function.iterate_succ_apply' orbitTick 3599 (0 : ℚ)
  rw [this, h3599, orbitTick, wrap360, if_pos (by norm_num)]
  norm_num

/-! ### Drag-session state on button-down -/

/-- Counterexample to C5: starting a drag with left-button-down at `(100,100)`
at time `50`, from a world with accumulated deltas `(7, 9)` and
last-interaction timestamp `3`, leaves the accumulated rotation deltas and
the timestamp at their previous values: they are not reset. -/
theorem drag_start_does_not_reset_all :
    (handleInput (Event.mouseButtonDown 1 100 100) 50 preDragWorld).sphereRotationX = 7 ∧
    (handleInput (Event.mouseButtonDown 1 100 100) 50 preDragWorld).sphereRotationY = 9 ∧
    (handleInput (Event.mouseButtonDown 1 100 100) 50 preDragWorld).lastInteractionTime = 3 ∧
    ¬((handleInput (Event.mouseButtonDown 1 100 100) 50 preDragWorld).sphereRotationX = 0 ∧
      (handleInput (Event.mouseButtonDown 1 100 100) 50 preDragWorld).sphereRotationY = 0 ∧
      (handleInput (Event.mouseButtonDown 1 100 100) 50 preDragWorld).lastInteractionTime = 50) := by
  norm_num [handleInput, preDragWorld, initialWorld]

/-- C5 (amended): a left-button-down event sets the dragging flag and
re-anchors the last mouse position to the click position; the accumulated
rotation deltas, the last-interaction timestamp and the planet state are
left unchanged. -/
theorem drag_start_state (w : World) (x y : ℤ) (t : ℕ) :
    (handleInput (Event.mouseButtonDown 1 x y) t w).dragging = true ∧
    (handleInput (Event.mouseButtonDown 1 x y) t w).lastMouseX = x ∧
    (handleInput (Event.mouseButtonDown 1 x y) t w).lastMouseY = y ∧
    (handleInput (Event.mouseButtonDown 1 x y) t w).sphereRotationX = w.sphereRotationX ∧
    (handleInput (Event.mouseButtonDown 1 x y) t w).sphereRotationY = w.sphereRotationY ∧
    (handleInput (Event.mouseButtonDown 1 x y) t w).lastInteractionTime = w.lastInteractionTime ∧
    (handleInput (Event.mouseButtonDown 1 x y) t w).planet = w.planet := by
  simp [handleInput]

/-! ### Atmosphere transform of the planet -/

/-- Counterexample to C6: for the planet with passive spin `10`, the net
vertical rotation applied to the atmosphere beyond the user-rotated frame is
`25`, not `rotationY + 5 = 15`. -/
theorem atmosphere_not_spin_plus_five :
    ¬ netYRot ((atmosphereTransform spinPlanet 7 8).drop 3)
        = spinPlanet.rotationY + 5 := by
  have h : netYRot ((atmosphereTransform spinPlanet 7 8).drop 3)
      = 0 + 10 + (10 + 5) + 0 := rfl
  have h2 : spinPlanet.rotationY = 10 := rfl
  rw [h, h2]
  norm_num

/-- C6 (amended): in the user-rotated frame, the atmosphere shell's
transform is the passive-spin rotation followed by a further vertical
rotation of `rotationY + 5` (and the 90-degree texture-orientation rotation
shared by every sphere draw): its net vertical rotation beyond the
user-rotated frame is `2·rotationY + 5`, i.e. the shell leads the body
(which sits at `rotationY`) by `rotationY + 5` degrees. -/
theorem atmosphere_leads_body_spin (p : Planet) (px pz : ℚ) :
    atmosphereTransform p px pz =
      [GLOp.translate px 0 pz, GLOp.rotateX p.userRotationX,
       GLOp.rotateY p.userRotationY, GLOp.rotateY p.rotationY,
       GLOp.rotateY (p.rotationY + 5), GLOp.rotateX 90] ∧
    netYRot ((atmosphereTransform p px pz).drop 3) = 2 * p.rotationY + 5 := by
  obtain ⟨rX, rY, zz, ps, t1, t2, rad, arad, mo, ux, uy, orR, orA, orS⟩ := p
  cases mo with
  | none =>
      have hr : Planet.render ⟨rX, rY, zz, ps, t1, t2, rad, arad, none, ux, uy, orR, orA, orS⟩ px pz
          = [GLOp.pushMatrix, GLOp.translate px 0 pz, GLOp.rotateX ux, GLOp.rotateY uy,
             GLOp.rotateY rY, GLOp.bindTexture t1, GLOp.pushMatrix, GLOp.rotateX 90,
             GLOp.drawSphere rad 40 40, GLOp.popMatrix, GLOp.pushMatrix,
             GLOp.rotateY (rY + 5), GLOp.bindTexture t2, GLOp.color 1 1 1 (1 / 2),
             GLOp.pushMatrix, GLOp.rotateX 90, GLOp.drawSphere arad 40 40, GLOp.popMatrix,
             GLOp.color 1 1 1 1, GLOp.popMatrix, GLOp.popMatrix] := by
        simp [Planet.render, Planet.renderS, RenderM.start, RenderM.gl, RenderM.glAll,
          Planet.renderSphere]
      have ha : atmosphereTransform ⟨rX, rY, zz, ps, t1, t2, rad, arad, none, ux, uy, orR, orA, orS⟩ px pz
          = [GLOp.translate px 0 pz, GLOp.rotateX ux, GLOp.rotateY uy, GLOp.rotateY rY,
             GLOp.rotateY (rY + 5), GLOp.rotateX 90] := by
        simp only [atmosphereTransform, hr]
        rfl
      refine ⟨ha, ?_⟩
      rw [ha]
      show (0 : ℚ) + rY + (rY + 5) + 0 = 2 * rY + 5
      ring
  | some m =>
      have hr : Planet.render ⟨rX, rY, zz, ps, t1, t2, rad, arad, some m, ux, uy, orR, orA, orS⟩ px pz
          = [GLOp.pushMatrix, GLOp.translate px 0 pz, GLOp.rotateX ux, GLOp.rotateY uy,
             GLOp.rotateY rY, GLOp.bindTexture t1, GLOp.pushMatrix, GLOp.rotateX 90,
             GLOp.drawSphere rad 40 40, GLOp.popMatrix, GLOp.pushMatrix,
             GLOp.rotateY (rY + 5), GLOp.bindTexture t2, GLOp.color 1 1 1 (1 / 2),
             GLOp.pushMatrix, GLOp.rotateX 90, GLOp.drawSphere arad 40 40, GLOp.popMatrix,
             GLOp.color 1 1 1 1, GLOp.popMatrix] ++
            [GLOp.pushMatrix, GLOp.rotateY m.orbitAngle, GLOp.translate m.distance 0 0,
             GLOp.bindTexture m.textureID, GLOp.drawSphere m.size 30 30, GLOp.pushMatrix,
             GLOp.rotateY (m.orbitAngle * (1 / 2)), GLOp.bindTexture m.atmosphereTextureID,
             GLOp.color 1 1 1 (1 / 2), GLOp.drawSphere (m.size + 1 / 20) 30 30,
             GLOp.color 1 1 1 1, GLOp.popMatrix, GLOp.popMatrix] ++
            [GLOp.popMatrix] := by
        simp [Planet.render, Planet.renderS, RenderM.start, RenderM.gl, RenderM.glAll,
          Planet.renderSphere, Moon.renderS, Moon.renderSphere]
      have ha : atmosphereTransform ⟨rX, rY, zz, ps, t1, t2, rad, arad, some m, ux, uy, orR, orA, orS⟩ px pz
          = [GLOp.translate px 0 pz, GLOp.rotateX ux, GLOp.rotateY uy, GLOp.rotateY rY,
             GLOp.rotateY (rY + 5), GLOp.rotateX 90] := by
        simp only [atmosphereTransform, hr]
        rfl
      refine ⟨ha, ?_⟩
      rw [ha]
      show (0 : ℚ) + rY + (rY + 5) + 0 = 2 * rY + 5
      ring

/-! ### Drag-motion rotation deltas -/

theorem clamp_chain_eq (v : ℚ) :
    (if (if 40 < v then (40 : ℚ) else v) < -40 then (-40 : ℚ)
      else if 40 < v then (40 : ℚ) else v) = max (-40) (min 40 v) := by
  rcases lt_or_le 40 v with h1 | h1
  · rw [if_pos h1, if_neg (by norm_num : ¬(40 : ℚ) < -40),
      min_eq_left h1.le, max_eq_right (by norm_num : (-40 : ℚ) ≤ 40)]
  · rw [if_neg (not_lt.mpr h1)]
    rcases lt_or_le v (-40) with h2 | h2
    · rw [if_pos h2, min_eq_right h1, max_eq_left h2.le]
    · rw [if_neg (not_lt.mpr h2), min_eq_right h1, max_eq_right h2]

/-- C7: while dragging with anchor `(100,100)`, a motion event to
`(150,130)` adds `dx·0.5 = 25` to the accumulated Y rotation, subtracts
`dy·0.5 = 15` from the accumulated X rotation with the result clamped to
`[-40, 40]`, and writes both to the planet via `setRotation`. -/
theorem drag_motion_applies_deltas (w : World) (t : ℕ)
    (hd : w.dragging = true) (hx : w.lastMouseX = 100) (hy : w.lastMouseY = 100) :
    (handleInput (Event.mouseMotion 150 130) t w).sphereRotationY
        = w.sphereRotationY + 25 ∧
    (handleInput (Event.mouseMotion 150 130) t w).sphereRotationX
        = max (-40) (min 40 (w.sphereRotationX - 15)) ∧
    (handleInput (Event.mouseMotion 150 130) t w).planet
        = w.planet.setRotation (max (-40) (min 40 (w.sphereRotationX - 15)))
            (w.sphereRotationY + 25) ∧
    (handleInput (Event.mouseMotion 150 130) t w).lastInteractionTime = t := by
  simp only [handleInput, hd, if_true, hx, hy]
  have e1 : ((150 - 100 : ℤ) : ℚ) * (1 / 2) = 25 := by norm_num
  have e2 : w.sphereRotationX - ((130 - 100 : ℤ) : ℚ) * (1 / 2)
      = w.sphereRotationX - 15 := by norm_num
  rw [e1, e2]
  refine ⟨rfl, clamp_chain_eq _, ?_, trivial⟩
  rw [clamp_chain_eq _]

/-- Witness for C7 at the concrete world `dragWorld`. -/
theorem drag_motion_applies_deltas_witness :
    dragWorld.dragging = true ∧
    (handleInput (Event.mouseMotion 150 130) 99 dragWorld).sphereRotationY
        = dragWorld.sphereRotationY + 25 ∧
    (handleInput (Event.mouseMotion 150 130) 99 dragWorld).sphereRotationX
        = max (-40) (min 40 (dragWorld.sphereRotationX - 15)) := by
  have h := drag_motion_applies_deltas dragWorld 99 rfl rfl rfl
  exact ⟨rfl, h.1, h.2.1⟩

/-! ### Render leaves state unchanged -/

/-- C9: for each celestial-body variant, `render` leaves the body's state
unchanged — the statement-by-statement translations thread the state through
every GL call and return it untouched. -/
theorem render_does_not_mutate (s : Sun) (p : Planet) (px pz : ℚ) (m : Moon) :
    (Sun.renderS s).state = s ∧ (Planet.renderS p px pz).state = p ∧
    (Moon.renderS m).state = m := by
  refine ⟨rfl, ?_, rfl⟩
  obtain ⟨rX, rY, zz, ps, t1, t2, rad, arad, mo, ux, uy, orR, orA, orS⟩ := p
  cases mo <;> rfl

/-! ### Motion without dragging is a no-op -/

/-- C10: a mouse-motion event processed while the dragging flag is false
leaves the whole interaction state unchanged: the world is returned as-is,
so the planet's user rotation, the accumulated rotation deltas, the last
mouse position and the last-interaction timestamp all keep their values. -/
theorem motion_without_drag_is_noop (w : World) (x y : ℤ) (t : ℕ)
    (hd : w.dragging = false) :
    handleInput (Event.mouseMotion x y) t w = w ∧
    (handleInput (Event.mouseMotion x y) t w).planet.userRotationX
        = w.planet.userRotationX ∧
    (handleInput (Event.mouseMotion x y) t w).planet.userRotationY
        = w.planet.userRotationY ∧
    (handleInput (Event.mouseMotion x y) t w).sphereRotationX = w.sphereRotationX ∧
    (handleInput (Event.mouseMotion x y) t w).sphereRotationY = w.sphereRotationY ∧
    (handleInput (Event.mouseMotion x y) t w).lastMouseX = w.lastMouseX ∧
    (handleInput (Event.mouseMotion x y) t w).lastMouseY = w.lastMouseY ∧
    (handleInput (Event.mouseMotion x y) t w).lastInteractionTime
        = w.lastInteractionTime := by
  have h : handleInput (Event.mouseMotion x y) t w = w := by
    simp [handleInput, hd]
  rw [h]
  exact ⟨rfl, rfl, rfl, rfl, rfl, rfl, rfl, rfl⟩

/-- Witness for C10 at the concrete world `idleWorld`. -/
theorem motion_without_drag_is_noop_witness :
    idleWorld.dragging = false ∧
    handleInput (Event.mouseMotion 5 6) 7 idleWorld = idleWorld :=
  ⟨rfl, (motion_without_drag_is_noop idleWorld 5 6 7 rfl).1⟩
